import Mathlib

/-!
Shallow embedding of the raffle-ticket application (`src/app.py`).

The application keeps one SQLite table `tickets` with columns
`number` (INTEGER PRIMARY KEY), `status` (TEXT, `free` or `sold`),
`buyer_name` (TEXT, nullable), `buyer_contact` (TEXT, nullable),
`paid` (INTEGER 0/1), `updated_at` (TEXT timestamp).

We model a row as a `Ticket` structure, the table as a `List Ticket`,
timestamps as natural numbers, and strings as `List Char`.  Each HTTP
handler that mutates the table (`sell`, `unlock`, `toggle_paid`) is a
function returning `Except` — `Flask`'s `abort` corresponds to the
`error` case and leaves the store untouched.  `init_db`, `buyers`
(the report query), `ticket_status` and the online/printable window
filters are translated directly from the corresponding Python code.
-/

namespace Raffle

/-- Ticket status: the `status` column, constrained to `'free'`/`'sold'`. -/
inductive TStatus where
  | free : TStatus
  | sold : TStatus
deriving DecidableEq, Repr

/-- One row of the `tickets` table. -/
structure Ticket where
  number : Int
  status : TStatus
  buyer_name : Option (List Char)
  buyer_contact : Option (List Char)
  paid : Bool
  updated_at : Nat
deriving DecidableEq, Repr

/-- The `tickets` table: a list of rows (the `number` PRIMARY KEY constraint
is stated as a `Nodup` hypothesis where a claim needs it). -/
abbrev Store := List Ticket

instance {ε α : Type} [DecidableEq ε] [DecidableEq α] : DecidableEq (Except ε α)
  | .ok a, .ok b =>
    if h : a = b then .isTrue (by rw [h])
    else .isFalse (by intro hc; cases hc; exact h rfl)
  | .ok _, .error _ => .isFalse (by intro hc; cases hc)
  | .error _, .ok _ => .isFalse (by intro hc; cases hc)
  | .error e, .error f =>
    if h : e = f then .isTrue (by rw [h])
    else .isFalse (by intro hc; cases hc; exact h rfl)

/-- `SELECT ... FROM tickets WHERE number=?` followed by `fetchone()`. -/
def getTicket (s : Store) (n : Int) : Option Ticket :=
  s.find? (fun t => t.number == n)

/-- `UPDATE tickets SET ... WHERE number=?`: rewrite every row whose
`number` equals `n` with `f`, leaving all other rows unchanged. -/
def updateTicket (s : Store) (n : Int) (f : Ticket → Ticket) : Store :=
  s.map (fun t => if t.number == n then f t else t)

/-- Whitespace characters removed by Python's `str.strip()`
(restricted to the ASCII whitespace characters). -/
def isPySpace (c : Char) : Bool :=
  c == ' ' || c == '\t' || c == '\n' || c == '\r' || c == '\x0b' || c == '\x0c'

/-- Python `str.strip()`: drop whitespace from both ends. -/
def pyStrip (l : List Char) : List Char :=
  ((l.dropWhile isPySpace).reverse.dropWhile isPySpace).reverse

/-- The error outcomes of the mutating handlers: `abort(400)` on a bad
input, `abort(404)` on a missing row, and `abort(400, "Este número já
foi vendido...")` when the ticket is already sold. -/
inductive OpError where
  | invalidInput : OpError
  | notFound : OpError
  | alreadySold : OpError
deriving DecidableEq, Repr

/-- The fresh row inserted by `init_db`:
`INSERT INTO tickets (number, status, paid, updated_at) VALUES (n,'free',0,now)`. -/
def freshTicket (n : Int) (now : Nat) : Ticket :=
  { number := n, status := .free, buyer_name := none, buyer_contact := none,
    paid := false, updated_at := now }

/-- The list of numbers `range(1, N + 1)` as integers. -/
def rangeInts (N : Int) : List Int :=
  (List.range N.toNat).map (fun (i : Nat) => (i : Int) + 1)

/-- `init_db` (`src/app.py:49-66`): if the row count is below
`TOTAL_NUMBERS`, insert a fresh `free` row for every number of
`[1, TOTAL_NUMBERS]` not already present; otherwise do nothing. -/
def init_db (N : Int) (s : Store) (now : Nat) : Store :=
  if (s.length : Int) < N then
    let existing := s.map Ticket.number
    let to_insert := (rangeInts N).filter (fun n => !(decide (n ∈ existing)))
    s ++ to_insert.map (fun n => freshTicket n now)
  else s

/-- `sell` (`src/app.py:774-796`): strip the buyer fields, reject
out-of-range numbers and empty names with 400, a missing row with 404,
an already-sold row with 400, and otherwise mark the row sold. -/
def sell (N : Int) (s : Store) (number : Int) (buyer_name buyer_contact : List Char)
    (paid : Bool) (now : Nat) : Except OpError Store :=
  if number < 1 ∨ number > N ∨ pyStrip buyer_name = [] then
    .error .invalidInput
  else
    match getTicket s number with
    | none => .error .notFound
    | some t =>
      if t.status = .sold then
        .error .alreadySold
      else
        .ok (updateTicket s number (fun t =>
          { t with status := .sold, buyer_name := some (pyStrip buyer_name),
                   buyer_contact := some (pyStrip buyer_contact),
                   paid := paid, updated_at := now }))

/-- `unlock` (`src/app.py:799-811`), the release operation: reject
out-of-range numbers with 400, otherwise set the row back to `free`,
clear both buyer fields, clear `paid`, and stamp `updated_at`. -/
def unlock (N : Int) (s : Store) (number : Int) (now : Nat) : Except OpError Store :=
  if number < 1 ∨ number > N then
    .error .invalidInput
  else
    .ok (updateTicket s number (fun t =>
      { t with status := .free, buyer_name := none, buyer_contact := none,
               paid := false, updated_at := now }))

/-- `toggle_paid` (`src/app.py:814-827`): reject out-of-range numbers
with 400, otherwise set `paid` to the given flag and stamp `updated_at`,
touching no other column. -/
def toggle_paid (N : Int) (s : Store) (number : Int) (new_paid : Bool)
    (now : Nat) : Except OpError Store :=
  if number < 1 ∨ number > N then
    .error .invalidInput
  else
    .ok (updateTicket s number (fun t =>
      { t with paid := new_paid, updated_at := now }))

/-- `buyers` (`src/app.py:830-842`):
`SELECT ... FROM tickets WHERE status='sold' ORDER BY updated_at DESC`. -/
def buyers (s : Store) : List Ticket :=
  (s.filter (fun t => t.status == .sold)).mergeSort
    (fun a b => decide (b.updated_at ≤ a.updated_at))

/-- `ticket_status` (`src/app.py:880-890`): 404 when the number is out
of `[1, TOTAL_NUMBERS]` or the row is missing, otherwise the pair
`{status, paid}`. -/
def ticket_status (N : Int) (s : Store) (number : Int) :
    Except Unit (TStatus × Bool) :=
  if number < 1 ∨ number > N then
    .error ()
  else
    match getTicket s number with
    | none => .error ()
    | some t => .ok (t.status, t.paid)

/-- `ONLINE_TICKETS` (`src/app.py:19`): the configured online count,
capped at `TOTAL_NUMBERS`. -/
def ONLINE_TICKETS (envOnline total : Int) : Int :=
  min envOnline total

/-- `PRINTABLE_START` (`src/app.py:20`). -/
def PRINTABLE_START (envOnline total : Int) : Int :=
  ONLINE_TICKETS envOnline total + 1

/-- The rows shown by the public grid (`index`, `src/app.py:726`):
`[r for r in rows if r["number"] <= ONLINE_TICKETS]`. -/
def onlineView (envOnline total : Int) (s : Store) : Store :=
  s.filter (fun t => t.number ≤ ONLINE_TICKETS envOnline total)

/-- The rows shown by the printable pages (`admin`/`tickets_print`/
`printable_public`): `WHERE number BETWEEN PRINTABLE_START AND TOTAL_NUMBERS`. -/
def printableView (envOnline total : Int) (s : Store) : Store :=
  s.filter (fun t =>
    PRINTABLE_START envOnline total ≤ t.number ∧ t.number ≤ total)

/-- The "online" window of ticket numbers, as a set. -/
def onlineWindow (envOnline total : Int) : Finset Int :=
  Finset.Icc 1 (ONLINE_TICKETS envOnline total)

/-- The "printable" window of ticket numbers, as a set. -/
def printableWindow (envOnline total : Int) : Finset Int :=
  Finset.Icc (PRINTABLE_START envOnline total) total

/-- One admin action, with the timestamp the handler would read from
`datetime.utcnow()`. -/
inductive Op where
  | opSell (number : Int) (buyer_name buyer_contact : List Char) (paid : Bool) (now : Nat)
  | opRelease (number : Int) (now : Nat)
  | opToggle (number : Int) (new_paid : Bool) (now : Nat)
deriving DecidableEq, Repr

/-- Run one handler against the store; an aborted request leaves the
store unchanged. -/
def applyOp (N : Int) (s : Store) (op : Op) : Store :=
  match op with
  | .opSell n bn bc p now =>
    match sell N s n bn bc p now with
    | .ok s1 => s1
    | .error _ => s
  | .opRelease n now =>
    match unlock N s n now with
    | .ok s1 => s1
    | .error _ => s
  | .opToggle n p now =>
    match toggle_paid N s n p now with
    | .ok s1 => s1
    | .error _ => s

/-- Run a sequence of admin actions. -/
def runOps (N : Int) (s : Store) (ops : List Op) : Store :=
  ops.foldl (applyOp N) s

/-- A store reachable from the freshly initialized (empty) database by
admin actions. -/
def Reachable (N : Int) (s : Store) : Prop :=
  ∃ ops : List Op, s = runOps N (init_db N [] 0) ops

/-- The invariant claimed for free tickets: a `free` row carries no
buyer data and is not marked paid. -/
def FreeClean (s : Store) : Prop :=
  ∀ t ∈ s, t.status = .free →
    t.buyer_name = none ∧ t.buyer_contact = none ∧ t.paid = false

/-- The part of `FreeClean` the code actually preserves: a `free` row
carries no buyer data. -/
def FreeNoBuyer (s : Store) : Prop :=
  ∀ t ∈ s, t.status = .free →
    t.buyer_name = none ∧ t.buyer_contact = none

instance (s : Store) : Decidable (FreeClean s) := by
  unfold FreeClean; infer_instance

instance (s : Store) : Decidable (FreeNoBuyer s) := by
  unfold FreeNoBuyer; infer_instance

/-! ### Helper lemmas about the embedding -/

theorem getTicket_eq_some {s : Store} {n : Int} {t : Ticket}
    (h : getTicket s n = some t) : t ∈ s ∧ t.number = n := by
  refine ⟨List.mem_of_find?_eq_some h, ?_⟩
  have := List.find?_some h
  simpa using this

theorem getTicket_updateTicket_self (s : Store) (n : Int) (f : Ticket → Ticket)
    (hf : ∀ t, (f t).number = t.number) :
    getTicket (updateTicket s n f) n = (getTicket s n).map f := by
  induction s with
  | nil => rfl
  | cons a s ih =>
    simp only [updateTicket, List.map_cons, getTicket, List.find?_cons] at *
    by_cases h : a.number = n
    · have h1 : (a.number == n) = true := by simpa using h
      have h2 : ((f a).number == n) = true := by simp [hf a, h]
      simp [h1, h2]
    · have h1 : (a.number == n) = false := by simpa using h
      simp only [h1, if_neg (by simpa using h)]
      simpa [h1] using ih

theorem getTicket_updateTicket_ne (s : Store) (n m : Int) (f : Ticket → Ticket)
    (hf : ∀ t, (f t).number = t.number) (hne : m ≠ n) :
    getTicket (updateTicket s n f) m = getTicket s m := by
  induction s with
  | nil => rfl
  | cons a s ih =>
    simp only [updateTicket, List.map_cons] at *
    by_cases h : a.number = n
    · rw [if_pos (by simpa using h)]
      have h2 : ((f a).number == m) = false := by
        simp [hf a, h]
        exact fun hc => hne hc.symm
      have h3 : ((a.number == m)) = false := by
        simp [h]
        exact fun hc => hne hc.symm
      simp only [getTicket, List.find?_cons, h2, h3]
      exact ih
    · rw [if_neg (by simpa using h)]
      simp only [getTicket, List.find?_cons]
      cases hpm : (a.number == m) with
      | true => simp
      | false => simp only [getTicket] at ih; exact ih

theorem mem_updateTicket {s : Store} {n : Int} {f : Ticket → Ticket} {u : Ticket}
    (h : u ∈ updateTicket s n f) :
    ∃ t ∈ s, u = if t.number = n then f t else t := by
  simp only [updateTicket, List.mem_map] at h
  obtain ⟨t, ht, rfl⟩ := h
  exact ⟨t, ht, by by_cases hc : t.number = n <;> simp [hc]⟩

theorem updateTicket_mem {s : Store} {n : Int} {f : Ticket → Ticket} {t : Ticket}
    (h : t ∈ s) (hne : t.number ≠ n) : t ∈ updateTicket s n f := by
  simp only [updateTicket, List.mem_map]
  exact ⟨t, h, by simp [hne]⟩

theorem updateTicket_updateTicket (s : Store) (n : Int) (f g : Ticket → Ticket)
    (hf : ∀ t, (f t).number = t.number) :
    updateTicket (updateTicket s n f) n g = updateTicket s n (fun t => g (f t)) := by
  simp only [updateTicket, List.map_map]
  apply List.map_congr_left
  intro t _
  by_cases h : t.number = n
  · simp [h, Function.comp, hf]
  · simp [h, Function.comp]

theorem length_updateTicket (s : Store) (n : Int) (f : Ticket → Ticket) :
    (updateTicket s n f).length = s.length := by
  simp [updateTicket]

/-! ### `pyStrip` lemmas -/

theorem pyStrip_eq_rdropWhile (l : List Char) :
    pyStrip l = (l.dropWhile isPySpace).rdropWhile isPySpace := rfl

theorem pyStrip_head_not_space {l : List Char} {c : Char}
    (h : (pyStrip l).head? = some c) : isPySpace c = false := by
  rw [pyStrip_eq_rdropWhile] at h
  have hpre := List.rdropWhile_prefix isPySpace (l.dropWhile isPySpace)
  obtain ⟨tail, htail⟩ := hpre
  have hne : (l.dropWhile isPySpace).rdropWhile isPySpace ≠ [] := by
    intro hnil; rw [hnil] at h; simp at h
  have hhead : (l.dropWhile isPySpace).head? = some c := by
    rw [← htail, List.head?_append]
    rw [List.head?_eq_head hne] at h ⊢
    simp [List.head_append_of_ne_nil hne] at h ⊢
    exact h
  have := List.head?_dropWhile_not isPySpace l
  rw [hhead] at this
  exact this

theorem pyStrip_getLast_not_space {l : List Char} {c : Char}
    (h : (pyStrip l).getLast? = some c) : isPySpace c = false := by
  rw [pyStrip_eq_rdropWhile] at h
  have hne : (l.dropWhile isPySpace).rdropWhile isPySpace ≠ [] := by
    intro hnil; rw [hnil] at h; simp at h
  have hlast := List.rdropWhile_last_not isPySpace (l.dropWhile isPySpace) hne
  rw [List.getLast?_eq_getLast _ hne] at h
  have hc : ((l.dropWhile isPySpace).rdropWhile isPySpace).getLast hne = c := by
    exact Option.some_injective _ h
  rw [hc] at hlast
  simpa using hlast

/-! ### `rangeInts` lemmas -/

theorem mem_rangeInts {N k : Int} : k ∈ rangeInts N ↔ 1 ≤ k ∧ k ≤ N := by
  simp only [rangeInts, List.mem_map, List.mem_range]
  constructor
  · rintro ⟨i, hi, rfl⟩
    omega
  · rintro ⟨h1, h2⟩
    exact ⟨(k - 1).toNat, by omega, by omega⟩

theorem nodup_rangeInts (N : Int) : (rangeInts N).Nodup := by
  unfold rangeInts
  refine List.Nodup.map ?_ (List.nodup_range _)
  intro a b hab
  simp only at hab
  omega

/-! ### Characterizing a successful `sell` -/

/-- The row update performed by a successful `sell`. -/
def sellUpdate (bn bc : List Char) (p : Bool) (now : Nat) : Ticket → Ticket :=
  fun t => { t with status := .sold, buyer_name := some (pyStrip bn),
                    buyer_contact := some (pyStrip bc), paid := p, updated_at := now }

/-- The row update performed by `unlock`. -/
def releaseUpdate (now : Nat) : Ticket → Ticket :=
  fun t => { t with status := .free, buyer_name := none, buyer_contact := none,
                    paid := false, updated_at := now }

/-- The row update performed by `toggle_paid`. -/
def toggleUpdate (b : Bool) (now : Nat) : Ticket → Ticket :=
  fun t => { t with paid := b, updated_at := now }

theorem sell_eq_update (N : Int) (s : Store) (n : Int) (bn bc : List Char)
    (p : Bool) (now : Nat) :
    sell N s n bn bc p now =
      if n < 1 ∨ n > N ∨ pyStrip bn = [] then
        .error .invalidInput
      else
        match getTicket s n with
        | none => .error .notFound
        | some t =>
          if t.status = .sold then .error .alreadySold
          else .ok (updateTicket s n (sellUpdate bn bc p now)) := rfl

theorem unlock_eq_update (N : Int) (s : Store) (n : Int) (now : Nat) :
    unlock N s n now =
      if n < 1 ∨ n > N then .error .invalidInput
      else .ok (updateTicket s n (releaseUpdate now)) := rfl

theorem toggle_paid_eq_update (N : Int) (s : Store) (n : Int) (b : Bool) (now : Nat) :
    toggle_paid N s n b now =
      if n < 1 ∨ n > N then .error .invalidInput
      else .ok (updateTicket s n (toggleUpdate b now)) := rfl

theorem sellUpdate_number (bn bc : List Char) (p : Bool) (now : Nat) (t : Ticket) :
    (sellUpdate bn bc p now t).number = t.number := rfl

theorem releaseUpdate_number (now : Nat) (t : Ticket) :
    (releaseUpdate now t).number = t.number := rfl

theorem toggleUpdate_number (b : Bool) (now : Nat) (t : Ticket) :
    (toggleUpdate b now t).number = t.number := rfl

theorem sell_ok_cases {N : Int} {s : Store} {n : Int} {bn bc : List Char}
    {p : Bool} {now : Nat} {s1 : Store}
    (h : sell N s n bn bc p now = .ok s1) :
    ∃ t, getTicket s n = some t ∧ t.status ≠ .sold ∧
      ¬(n < 1 ∨ n > N ∨ pyStrip bn = []) ∧
      s1 = updateTicket s n (sellUpdate bn bc p now) := by
  rw [sell_eq_update] at h
  by_cases hguard : n < 1 ∨ n > N ∨ pyStrip bn = []
  · rw [if_pos hguard] at h; cases h
  · rw [if_neg hguard] at h
    cases hg : getTicket s n with
    | none => rw [hg] at h; cases h
    | some t =>
      rw [hg] at h
      dsimp only at h
      by_cases hst : t.status = .sold
      · rw [if_pos hst] at h; cases h
      · rw [if_neg hst] at h
        cases h
        exact ⟨t, rfl, hst, hguard, rfl⟩

theorem sell_ok_of {N : Int} {s : Store} {n : Int} {bn bc : List Char}
    {p : Bool} {now : Nat} {t : Ticket}
    (h1 : 1 ≤ n) (h2 : n ≤ N) (hbn : pyStrip bn ≠ [])
    (ht : getTicket s n = some t) (hst : t.status ≠ .sold) :
    sell N s n bn bc p now = .ok (updateTicket s n (sellUpdate bn bc p now)) := by
  rw [sell_eq_update, if_neg (by push_neg; exact ⟨by omega, by omega, hbn⟩), ht]
  dsimp only
  rw [if_neg hst]

/-! ### Sample strings and stores for the concrete witnesses -/

def sAna : List Char := "Ana".toList

def sBruno : List Char := "Bruno".toList

def s123 : List Char := "123".toList

def s456 : List Char := "456".toList

def sSpaces : List Char := "   ".toList

def sPaddedAna : List Char := " Ana ".toList

/-- A sold demo ticket, number 2. -/
def soldTwo : Ticket :=
  { number := 2, status := .sold, buyer_name := some sAna,
    buyer_contact := some s123, paid := false, updated_at := 1 }

/-- A two-ticket demo store: number 1 free, number 2 sold. -/
def twoStore : Store := [freshTicket 1 0, soldTwo]

/-! ### Claims -/

/-- C5: `sell(number, buyer_name, buyer_contact, paid)` fails with
`InvalidInput` (400), without modifying any ticket, whenever the number
is below 1, above `TOTAL_NUMBERS`, or the (stripped) buyer name is
empty; in particular `sell(0, ...)` and `sell(N+1, ...)` both fail. -/
theorem sell_rejects_invalid_input (N : Int) (s : Store) (number : Int)
    (bn bc : List Char) (p : Bool) (now : Nat)
    (h : number < 1 ∨ number > N ∨ pyStrip bn = []) :
    sell N s number bn bc p now = .error .invalidInput ∧
    applyOp N s (.opSell number bn bc p now) = s := by
  have hs : sell N s number bn bc p now = .error .invalidInput := by
    rw [sell_eq_update, if_pos h]
  exact ⟨hs, by simp [applyOp, hs]⟩

theorem sell_rejects_invalid_input_witness :
    sell 3 (init_db 3 [] 0) 0 sAna s123 true 5 = .error .invalidInput ∧
    sell 3 (init_db 3 [] 0) 4 sAna s123 true 5 = .error .invalidInput ∧
    applyOp 3 (init_db 3 [] 0) (.opSell 0 sAna s123 true 5) = init_db 3 [] 0 :=
  ⟨(sell_rejects_invalid_input 3 (init_db 3 [] 0) 0 sAna s123 true 5 (by decide)).1,
   (sell_rejects_invalid_input 3 (init_db 3 [] 0) 4 sAna s123 true 5 (by decide)).1,
   (sell_rejects_invalid_input 3 (init_db 3 [] 0) 0 sAna s123 true 5 (by decide)).2⟩

/-- C9: the unauthenticated status probe returns the pair
`{status, paid}` of ticket `n` when `n` lies in `[1, TOTAL_NUMBERS]` and
a record exists for it, and returns a 404 response when `n` is outside
`[1, TOTAL_NUMBERS]`. -/
theorem ticket_status_spec (N : Int) (s : Store) (n : Int) (t : Ticket) :
    (1 ≤ n → n ≤ N → getTicket s n = some t →
      ticket_status N s n = .ok (t.status, t.paid)) ∧
    (n < 1 ∨ n > N → ticket_status N s n = .error ()) := by
  constructor
  · intro h1 h2 ht
    unfold ticket_status
    rw [if_neg (by omega), ht]
  · intro h
    unfold ticket_status
    rw [if_pos h]

theorem ticket_status_spec_witness :
    ticket_status 3 (init_db 3 [] 0) 2 = .ok (.free, false) ∧
    ticket_status 3 (init_db 3 [] 0) 4 = .error () :=
  ⟨(ticket_status_spec 3 (init_db 3 [] 0) 2 (freshTicket 2 0)).1
      (by decide) (by decide) (by decide),
   (ticket_status_spec 3 (init_db 3 [] 0) 4 (freshTicket 4 0)).2 (by decide)⟩

/-- C6: for a ticket `n` in `[1, TOTAL_NUMBERS]` (and any status),
`toggle_paid(n, b)` succeeds, sets `paid` to `b` and stamps `updated_at`
while leaving `status`, `buyer_name` and `buyer_contact` unchanged, and
leaves every other ticket untouched; a second `toggle_paid` with the
same `b` produces the same store as a single one with the later stamp. -/
theorem toggle_paid_spec (N : Int) (s : Store) (n : Int) (b : Bool)
    (now1 now2 : Nat) (t : Ticket)
    (h1 : 1 ≤ n) (h2 : n ≤ N) (ht : getTicket s n = some t) :
    toggle_paid N s n b now1 = .ok (updateTicket s n (toggleUpdate b now1)) ∧
    getTicket (updateTicket s n (toggleUpdate b now1)) n =
      some { t with paid := b, updated_at := now1 } ∧
    (∀ m, m ≠ n → getTicket (updateTicket s n (toggleUpdate b now1)) m = getTicket s m) ∧
    toggle_paid N (updateTicket s n (toggleUpdate b now1)) n b now2 =
      toggle_paid N s n b now2 := by
  have hin : ¬(n < 1 ∨ n > N) := by omega
  refine ⟨by rw [toggle_paid_eq_update, if_neg hin], ?_, ?_, ?_⟩
  · rw [getTicket_updateTicket_self s n _ (toggleUpdate_number b now1), ht]
    rfl
  · intro m hm
    exact getTicket_updateTicket_ne s n m _ (toggleUpdate_number b now1) hm
  · rw [toggle_paid_eq_update, toggle_paid_eq_update, if_neg hin, if_neg hin,
      updateTicket_updateTicket s n _ _ (toggleUpdate_number b now1)]
    rfl

theorem toggle_paid_spec_witness :
    toggle_paid 2 twoStore 2 true 5 = .ok (updateTicket twoStore 2 (toggleUpdate true 5)) ∧
    getTicket (updateTicket twoStore 2 (toggleUpdate true 5)) 2 =
      some { soldTwo with paid := true, updated_at := 5 } ∧
    getTicket (updateTicket twoStore 2 (toggleUpdate true 5)) 1 = getTicket twoStore 1 ∧
    toggle_paid 2 (updateTicket twoStore 2 (toggleUpdate true 5)) 2 true 9 =
      toggle_paid 2 twoStore 2 true 9 := by
  have h := toggle_paid_spec 2 twoStore 2 true 5 9 soldTwo (by decide) (by decide) (by decide)
  exact ⟨h.1, h.2.1, h.2.2.1 1 (by decide), h.2.2.2⟩

/-- The ticket record produced by `sell(5, "Ana", "123", paid=true)`. -/
def anaTicket : Ticket :=
  { number := 5, status := .sold, buyer_name := some sAna,
    buyer_contact := some s123, paid := true, updated_at := 1 }

/-- The five-ticket store after `sell(5, "Ana", "123", true)` on a fresh
database. -/
def anaStore : Store :=
  [freshTicket 1 0, freshTicket 2 0, freshTicket 3 0, freshTicket 4 0, anaTicket]

/-- C2: selling a ticket whose current status is `sold` fails with the
`AlreadySold` error (400 with the "já foi vendido" message) and leaves
the store, in particular that ticket's record, unchanged. -/
theorem sell_already_sold (N : Int) (s : Store) (n : Int) (bn bc : List Char)
    (p : Bool) (now : Nat) (t : Ticket)
    (h1 : 1 ≤ n) (h2 : n ≤ N) (hbn : pyStrip bn ≠ [])
    (ht : getTicket s n = some t) (hsold : t.status = .sold) :
    sell N s n bn bc p now = .error .alreadySold ∧
    applyOp N s (.opSell n bn bc p now) = s ∧
    getTicket (applyOp N s (.opSell n bn bc p now)) n = some t := by
  have hs : sell N s n bn bc p now = .error .alreadySold := by
    rw [sell_eq_update, if_neg (by push_neg; exact ⟨by omega, by omega, hbn⟩), ht]
    dsimp only
    rw [if_pos hsold]
  have ha : applyOp N s (.opSell n bn bc p now) = s := by
    simp [applyOp, hs]
  exact ⟨hs, ha, by rw [ha]; exact ht⟩

theorem sell_already_sold_witness :
    sell 5 (init_db 5 [] 0) 5 sAna s123 true 1 = .ok anaStore ∧
    sell 5 anaStore 5 sBruno s456 false 2 = .error .alreadySold ∧
    applyOp 5 anaStore (.opSell 5 sBruno s456 false 2) = anaStore ∧
    getTicket (applyOp 5 anaStore (.opSell 5 sBruno s456 false 2)) 5 = some anaTicket := by
  have h := sell_already_sold 5 anaStore 5 sBruno s456 false 2 anaTicket
    (by decide) (by decide) (by decide) (by decide) (by decide)
  exact ⟨by decide, h.1, h.2.1, h.2.2⟩

/-- C4: for a ticket `n` in `[1, TOTAL_NUMBERS]`, `release(n)` always
succeeds (even when the ticket is already free), sets `status = free`,
clears both buyer fields, resets `paid`, stamps `updated_at`, and leaves
every other ticket untouched; releasing again yields the same store as a
single release with the later stamp (idempotence); and for a free ticket,
`sell` followed by `release` returns the ticket to the initial free state
except for `updated_at`. -/
theorem release_spec (N : Int) (s : Store) (n : Int) (bn bc : List Char) (p : Bool)
    (now1 now2 now3 : Nat) (t : Ticket)
    (h1 : 1 ≤ n) (h2 : n ≤ N) (ht : getTicket s n = some t) :
    unlock N s n now1 = .ok (updateTicket s n (releaseUpdate now1)) ∧
    getTicket (updateTicket s n (releaseUpdate now1)) n =
      some { number := n, status := .free, buyer_name := none,
             buyer_contact := none, paid := false, updated_at := now1 } ∧
    (∀ m, m ≠ n →
      getTicket (updateTicket s n (releaseUpdate now1)) m = getTicket s m) ∧
    unlock N (updateTicket s n (releaseUpdate now1)) n now2 = unlock N s n now2 ∧
    (t.status = .free → pyStrip bn ≠ [] →
      sell N s n bn bc p now2 = .ok (updateTicket s n (sellUpdate bn bc p now2)) ∧
      unlock N (updateTicket s n (sellUpdate bn bc p now2)) n now3 =
        .ok (updateTicket (updateTicket s n (sellUpdate bn bc p now2)) n
          (releaseUpdate now3)) ∧
      getTicket (updateTicket (updateTicket s n (sellUpdate bn bc p now2)) n
          (releaseUpdate now3)) n =
        some { number := n, status := .free, buyer_name := none,
               buyer_contact := none, paid := false, updated_at := now3 }) := by
  have hin : ¬(n < 1 ∨ n > N) := by omega
  have hn : t.number = n := (getTicket_eq_some ht).2
  refine ⟨by rw [unlock_eq_update, if_neg hin], ?_, ?_, ?_, ?_⟩
  · rw [getTicket_updateTicket_self s n _ (releaseUpdate_number now1), ht]
    simp [releaseUpdate, hn]
  · intro m hm
    exact getTicket_updateTicket_ne s n m _ (releaseUpdate_number now1) hm
  · rw [unlock_eq_update, unlock_eq_update, if_neg hin, if_neg hin,
      updateTicket_updateTicket s n _ _ (releaseUpdate_number now1)]
    rfl
  · intro hfree hbn
    refine ⟨sell_ok_of h1 h2 hbn ht (by simp [hfree]), ?_, ?_⟩
    · rw [unlock_eq_update, if_neg hin]
    · rw [updateTicket_updateTicket s n _ _ (sellUpdate_number bn bc p now2),
        getTicket_updateTicket_self s n
          (fun u => releaseUpdate now3 (sellUpdate bn bc p now2 u)) (fun u => rfl), ht]
      simp [sellUpdate, releaseUpdate, hn]

theorem release_spec_witness :
    unlock 2 twoStore 1 4 = .ok (updateTicket twoStore 1 (releaseUpdate 4)) ∧
    getTicket (updateTicket twoStore 1 (releaseUpdate 4)) 1 =
      some { number := 1, status := .free, buyer_name := none,
             buyer_contact := none, paid := false, updated_at := 4 } ∧
    getTicket (updateTicket twoStore 1 (releaseUpdate 4)) 2 = getTicket twoStore 2 ∧
    unlock 2 (updateTicket twoStore 1 (releaseUpdate 4)) 1 6 = unlock 2 twoStore 1 6 ∧
    sell 2 twoStore 1 sAna s123 true 6 =
      .ok (updateTicket twoStore 1 (sellUpdate sAna s123 true 6)) ∧
    unlock 2 (updateTicket twoStore 1 (sellUpdate sAna s123 true 6)) 1 8 =
      .ok (updateTicket (updateTicket twoStore 1 (sellUpdate sAna s123 true 6)) 1
        (releaseUpdate 8)) ∧
    getTicket (updateTicket (updateTicket twoStore 1 (sellUpdate sAna s123 true 6)) 1
        (releaseUpdate 8)) 1 =
      some { number := 1, status := .free, buyer_name := none,
             buyer_contact := none, paid := false, updated_at := 8 } := by
  have h := release_spec 2 twoStore 1 sAna s123 true 4 6 8 (freshTicket 1 0)
    (by decide) (by decide) (by decide)
  have h5 := h.2.2.2.2 (by decide) (by decide)
  exact ⟨h.1, h.2.1, h.2.2.1 2 (by decide), h.2.2.2.1, h5.1, h5.2.1, h5.2.2⟩

/-- C10: `sell` strips leading and trailing whitespace from the buyer
fields before validating and storing them: a whitespace-only
`buyer_name` is rejected with `InvalidInput` exactly like an empty one,
and on success the stored `buyer_name`/`buyer_contact` are the stripped
inputs, which never start or end with a whitespace character. -/
theorem sell_strips_whitespace (N : Int) (s : Store) (n : Int) (bn bc : List Char)
    (p : Bool) (now : Nat) :
    (pyStrip bn = [] → sell N s n bn bc p now = .error .invalidInput) ∧
    (∀ s1, sell N s n bn bc p now = .ok s1 →
      ∃ t, getTicket s1 n = some t ∧
        t.buyer_name = some (pyStrip bn) ∧ t.buyer_contact = some (pyStrip bc)) ∧
    (∀ c, (pyStrip bn).head? = some c → isPySpace c = false) ∧
    (∀ c, (pyStrip bn).getLast? = some c → isPySpace c = false) ∧
    (∀ c, (pyStrip bc).head? = some c → isPySpace c = false) ∧
    (∀ c, (pyStrip bc).getLast? = some c → isPySpace c = false) := by
  refine ⟨?_, ?_, fun c hc => pyStrip_head_not_space hc,
    fun c hc => pyStrip_getLast_not_space hc,
    fun c hc => pyStrip_head_not_space hc,
    fun c hc => pyStrip_getLast_not_space hc⟩
  · intro hempty
    rw [sell_eq_update, if_pos (Or.inr (Or.inr hempty))]
  · intro s1 hok
    obtain ⟨t, ht, hst, hguard, rfl⟩ := sell_ok_cases hok
    refine ⟨sellUpdate bn bc p now t, ?_, rfl, rfl⟩
    rw [getTicket_updateTicket_self s n _ (sellUpdate_number bn bc p now), ht]
    rfl

theorem sell_strips_whitespace_witness :
    sell 2 twoStore 1 sSpaces s123 true 3 = .error .invalidInput ∧
    (∃ t, getTicket (updateTicket twoStore 1 (sellUpdate sPaddedAna s123 true 3)) 1 =
        some t ∧
      t.buyer_name = some (pyStrip sPaddedAna) ∧
      t.buyer_contact = some (pyStrip s123)) ∧
    isPySpace 'A' = false ∧
    pyStrip sPaddedAna = sAna := by
  refine ⟨?_, ?_, ?_, by decide⟩
  · exact (sell_strips_whitespace 2 twoStore 1 sSpaces s123 true 3).1 (by decide)
  · exact (sell_strips_whitespace 2 twoStore 1 sPaddedAna s123 true 3).2.1
      (updateTicket twoStore 1 (sellUpdate sPaddedAna s123 true 3)) (by decide)
  · exact (sell_strips_whitespace 2 twoStore 1 sPaddedAna s123 true 3).2.2.1 'A'
      (by decide)

/-- A sold row for the report demo (older update). -/
def anaRow : Ticket :=
  { number := 1, status := .sold, buyer_name := some sAna,
    buyer_contact := some s123, paid := true, updated_at := 3 }

/-- A sold row for the report demo (newer update). -/
def brunoRow : Ticket :=
  { number := 3, status := .sold, buyer_name := some sBruno,
    buyer_contact := some s456, paid := false, updated_at := 7 }

/-- Demo store for the buyers report: two sold rows and a free one. -/
def reportStore : Store := [anaRow, freshTicket 2 0, brunoRow]

/-- C7: `buyers_report()` returns exactly the tickets with
`status = sold` — every returned row is sold and every sold row is
returned, no `free` row appears — ordered by `updated_at` descending. -/
theorem buyers_spec (s : Store) :
    (∀ t ∈ buyers s, t.status = .sold) ∧
    (∀ t ∈ s, t.status = .sold → t ∈ buyers s) ∧
    (∀ t ∈ buyers s, t ∈ s) ∧
    (buyers s).Pairwise (fun a b => b.updated_at ≤ a.updated_at) ∧
    (buyers s).Perm (s.filter (fun t => t.status == .sold)) := by
  unfold buyers
  have hperm := List.mergeSort_perm (s.filter (fun t => t.status == .sold))
    (fun a b => decide (b.updated_at ≤ a.updated_at))
  refine ⟨?_, ?_, ?_, ?_, hperm⟩
  · intro t ht
    have hmem := hperm.mem_iff.mp ht
    have := (List.mem_filter.mp hmem).2
    simpa using this
  · intro t hts hsold
    exact hperm.mem_iff.mpr (List.mem_filter.mpr ⟨hts, by simp [hsold]⟩)
  · intro t ht
    exact (List.mem_filter.mp (hperm.mem_iff.mp ht)).1
  · refine List.Pairwise.imp ?_ (List.sorted_mergeSort ?_ ?_ _)
    · intro a b hab
      exact of_decide_eq_true hab
    · intro a b c hab hbc
      simp only [decide_eq_true_eq] at *
      omega
    · intro a b
      rcases Nat.le_total a.updated_at b.updated_at with h | h <;> simp [h]

theorem buyers_spec_witness :
    brunoRow ∈ buyers reportStore ∧
    anaRow.status = .sold ∧
    anaRow ∈ reportStore ∧
    (buyers reportStore).Pairwise (fun a b => b.updated_at ≤ a.updated_at) ∧
    (buyers reportStore).Perm (reportStore.filter (fun t => t.status == .sold)) := by
  have h := buyers_spec reportStore
  exact ⟨h.2.1 brunoRow (by decide) (by decide), by decide, by decide,
    h.2.2.2.1, h.2.2.2.2⟩

/-- A three-ticket demo store crossing the online/printable boundary. -/
def threeStore : Store := [freshTicket 1 0, soldTwo, freshTicket 3 0]

/-- C8: with an online count `envOnline ≥ 0`, the online window
`[1, ONLINE_TICKETS]` and printable window
`[PRINTABLE_START, TOTAL_NUMBERS]` are disjoint and together cover
`[1, TOTAL_NUMBERS]`; every ticket with `number ≤ ONLINE_TICKETS`
appears in the online view, and every ticket with a higher number is
absent from the online view and (when its number is in range) appears
in the printable view. -/
theorem window_partition (envOnline total : Int) (s : Store) (t : Ticket)
    (henv : 0 ≤ envOnline) :
    Disjoint (onlineWindow envOnline total) (printableWindow envOnline total) ∧
    onlineWindow envOnline total ∪ printableWindow envOnline total =
      Finset.Icc 1 total ∧
    (t ∈ s → t.number ≤ ONLINE_TICKETS envOnline total →
      t ∈ onlineView envOnline total s) ∧
    (t ∈ s → ONLINE_TICKETS envOnline total < t.number →
      t ∉ onlineView envOnline total s ∧
      (t.number ≤ total → t ∈ printableView envOnline total s)) := by
  refine ⟨?_, ?_, ?_, ?_⟩
  · rw [Finset.disjoint_left]
    intro k hk1 hk2
    simp only [onlineWindow, printableWindow, PRINTABLE_START, Finset.mem_Icc] at hk1 hk2
    omega
  · ext k
    simp only [onlineWindow, printableWindow, PRINTABLE_START, ONLINE_TICKETS,
      Finset.mem_Icc, Finset.mem_union]
    omega
  · intro hts hle
    simp only [onlineView, List.mem_filter, decide_eq_true_eq]
    exact ⟨hts, hle⟩
  · intro hts hgt
    constructor
    · simp only [onlineView, List.mem_filter, decide_eq_true_eq]
      intro hc
      omega
    · intro hle
      simp only [printableView, List.mem_filter, decide_eq_true_eq, PRINTABLE_START]
      exact ⟨hts, by omega, hle⟩

theorem window_partition_witness :
    Disjoint (onlineWindow 2 3) (printableWindow 2 3) ∧
    onlineWindow 2 3 ∪ printableWindow 2 3 = Finset.Icc 1 3 ∧
    soldTwo ∈ onlineView 2 3 threeStore ∧
    freshTicket 3 0 ∉ onlineView 2 3 threeStore ∧
    freshTicket 3 0 ∈ printableView 2 3 threeStore := by
  have hA := window_partition 2 3 threeStore soldTwo (by decide)
  have hB := window_partition 2 3 threeStore (freshTicket 3 0) (by decide)
  have h4 := hB.2.2.2 (by decide) (by decide)
  exact ⟨hA.1, hA.2.1, hA.2.2.1 (by decide) (by decide), h4.1, h4.2 (by decide)⟩

theorem freeNoBuyer_applyOp (N : Int) (s : Store) (op : Op)
    (h : FreeNoBuyer s) : FreeNoBuyer (applyOp N s op) := by
  cases op with
  | opSell n bn bc p now =>
    cases hs : sell N s n bn bc p now with
    | error e => simpa [applyOp, hs] using h
    | ok s1 =>
      have hgoal : applyOp N s (.opSell n bn bc p now) = s1 := by
        simp [applyOp, hs]
      rw [hgoal]
      obtain ⟨t0, ht0, hst0, hg, rfl⟩ := sell_ok_cases hs
      intro u hu hfree
      obtain ⟨t, htmem, hcond⟩ := mem_updateTicket hu
      by_cases hc : t.number = n
      · rw [if_pos hc] at hcond
        subst hcond
        simp [sellUpdate] at hfree
      · rw [if_neg hc] at hcond
        subst hcond
        exact h _ htmem hfree
  | opRelease n now =>
    cases hs : unlock N s n now with
    | error e => simpa [applyOp, hs] using h
    | ok s1 =>
      have hgoal : applyOp N s (.opRelease n now) = s1 := by
        simp [applyOp, hs]
      rw [hgoal]
      rw [unlock_eq_update] at hs
      by_cases hr : n < 1 ∨ n > N
      · rw [if_pos hr] at hs; cases hs
      · rw [if_neg hr] at hs
        cases hs
        intro u hu hfree
        obtain ⟨t, htmem, hcond⟩ := mem_updateTicket hu
        by_cases hc : t.number = n
        · rw [if_pos hc] at hcond
          subst hcond
          exact ⟨rfl, rfl⟩
        · rw [if_neg hc] at hcond
          subst hcond
          exact h _ htmem hfree
  | opToggle n p now =>
    cases hs : toggle_paid N s n p now with
    | error e => simpa [applyOp, hs] using h
    | ok s1 =>
      have hgoal : applyOp N s (.opToggle n p now) = s1 := by
        simp [applyOp, hs]
      rw [hgoal]
      rw [toggle_paid_eq_update] at hs
      by_cases hr : n < 1 ∨ n > N
      · rw [if_pos hr] at hs; cases hs
      · rw [if_neg hr] at hs
        cases hs
        intro u hu hfree
        obtain ⟨t, htmem, hcond⟩ := mem_updateTicket hu
        by_cases hc : t.number = n
        · rw [if_pos hc] at hcond
          subst hcond
          exact h t htmem hfree
        · rw [if_neg hc] at hcond
          subst hcond
          exact h _ htmem hfree

theorem freeNoBuyer_init (N : Int) (s : Store) (now : Nat)
    (h : FreeNoBuyer s) : FreeNoBuyer (init_db N s now) := by
  unfold init_db
  by_cases hc : (s.length : Int) < N
  · rw [if_pos hc]
    dsimp only
    intro t ht hfree
    rcases List.mem_append.mp ht with hmem | hmem
    · exact h t hmem hfree
    · obtain ⟨k, hk, rfl⟩ := List.mem_map.mp hmem
      exact ⟨rfl, rfl⟩
  · rw [if_neg hc]
    exact h

theorem freeNoBuyer_runOps (N : Int) (s : Store) (ops : List Op)
    (h : FreeNoBuyer s) : FreeNoBuyer (runOps N s ops) := by
  induction ops generalizing s with
  | nil => exact h
  | cons op ops ih => exact ih _ (freeNoBuyer_applyOp N s op h)

/-- C1 counterexample: the full free-ticket invariant (buyer fields null
AND `paid = false`) is not preserved by all three operations — from the
initialized store, `toggle_paid(1, true)` yields a reachable state whose
ticket 1 is `free` yet `paid = true`, because `toggle_paid` checks only
the range of the number, not the status. -/
theorem free_ticket_can_be_paid :
    Reachable 1 (runOps 1 (init_db 1 [] 0) [Op.opToggle 1 true 1]) ∧
    ¬ FreeClean (runOps 1 (init_db 1 [] 0) [Op.opToggle 1 true 1]) :=
  ⟨⟨[Op.opToggle 1 true 1], rfl⟩, by decide⟩

/-- C1 (amended): in every state reachable from the initialized store by
`sell`, `release` and `toggle_paid`, every ticket with `status = free`
has `buyer_name` and `buyer_contact` null.  (The `paid = false` part of
the claimed invariant fails: `toggle_paid` can mark a free ticket paid.) -/
theorem reachable_free_no_buyer (N : Int) (s : Store) (h : Reachable N s) :
    FreeNoBuyer s := by
  obtain ⟨ops, rfl⟩ := h
  refine freeNoBuyer_runOps N _ ops (freeNoBuyer_init N [] 0 ?_)
  intro t ht
  cases ht

/-- A demo action sequence exercising all three operations. -/
def demoOps : List Op :=
  [Op.opSell 1 sAna s123 true 1, Op.opToggle 1 false 2, Op.opRelease 1 3]

theorem reachable_free_no_buyer_witness :
    Reachable 2 (runOps 2 (init_db 2 [] 0) demoOps) ∧
    FreeNoBuyer (runOps 2 (init_db 2 [] 0) demoOps) :=
  ⟨⟨demoOps, rfl⟩, reachable_free_no_buyer 2 _ ⟨demoOps, rfl⟩⟩

/-- C3 counterexample: `init_db` does nothing whenever the row count
already reaches `TOTAL_NUMBERS`, even if some number of `[1, N]` has no
record — with `N = 1` and a prior store holding only a record for
number 2, no record for number 1 is created. -/
theorem init_db_not_always_filling :
    init_db 1 [freshTicket 2 0] 5 = [freshTicket 2 0] ∧
    getTicket (init_db 1 [freshTicket 2 0] 5) 1 = none := by
  decide

/-- C3 (amended): provided the prior row count is below `n` (otherwise
the `count < TOTAL_NUMBERS` guard skips the insertion entirely) and the
prior rows satisfy the primary-key uniqueness, `init_db` appends fresh
rows after the untouched pre-existing ones, every created row is
`free`/unpaid with no buyer data, and afterwards exactly one record
exists for each number in `[1, n]`. -/
theorem init_db_fills_missing (N : Int) (s : Store) (now : Nat)
    (hc : (s.length : Int) < N)
    (hnd : (s.map Ticket.number).Nodup) :
    (∃ added, init_db N s now = s ++ added ∧
      ∀ t ∈ added, t.status = .free ∧ t.buyer_name = none ∧
        t.buyer_contact = none ∧ t.paid = false ∧ t.updated_at = now) ∧
    (∀ k : Int, 1 ≤ k → k ≤ N →
      ((init_db N s now).map Ticket.number).count k = 1) := by
  have hinit : init_db N s now =
      s ++ ((rangeInts N).filter
        (fun n => !decide (n ∈ s.map Ticket.number))).map
          (fun n => freshTicket n now) := by
    unfold init_db
    rw [if_pos hc]
  refine ⟨⟨_, hinit, ?_⟩, ?_⟩
  · intro t ht
    obtain ⟨k, hk, rfl⟩ := List.mem_map.mp ht
    exact ⟨rfl, rfl, rfl, rfl, rfl⟩
  · intro k h1 h2
    rw [hinit, List.map_append, List.count_append]
    have hmapmap : (((rangeInts N).filter
        (fun n => !decide (n ∈ s.map Ticket.number))).map
          (fun n => freshTicket n now)).map Ticket.number =
        (rangeInts N).filter (fun n => !decide (n ∈ s.map Ticket.number)) := by
      rw [List.map_map]
      exact List.map_id'' (fun x => rfl) _
    rw [hmapmap]
    by_cases hmem : k ∈ s.map Ticket.number
    · have hone : (s.map Ticket.number).count k = 1 :=
        List.count_eq_one_of_mem hnd hmem
      have hzero : ((rangeInts N).filter
          (fun n => !decide (n ∈ s.map Ticket.number))).count k = 0 := by
        rw [List.count_eq_zero]
        intro hkmem
        have hpred := (List.mem_filter.mp hkmem).2
        simp [hmem] at hpred
      omega
    · have hzero : (s.map Ticket.number).count k = 0 :=
        List.count_eq_zero.mpr hmem
      have hkin : k ∈ (rangeInts N).filter
          (fun n => !decide (n ∈ s.map Ticket.number)) :=
        List.mem_filter.mpr ⟨mem_rangeInts.mpr ⟨h1, h2⟩, by simp [hmem]⟩
      have hone := List.count_eq_one_of_mem ((nodup_rangeInts N).filter _) hkin
      omega

theorem init_db_fills_missing_witness :
    (∃ added, init_db 2 [freshTicket 1 3] 7 = [freshTicket 1 3] ++ added ∧
      ∀ t ∈ added, t.status = .free ∧ t.buyer_name = none ∧
        t.buyer_contact = none ∧ t.paid = false ∧ t.updated_at = 7) ∧
    ((init_db 2 [freshTicket 1 3] 7).map Ticket.number).count 2 = 1 := by
  have h := init_db_fills_missing 2 [freshTicket 1 3] 7 (by decide) (by decide)
  exact ⟨h.1, h.2 2 (by decide) (by decide)⟩

end Raffle
